import Mathlib

/-!
Shallow embedding of the AvoltaFrontend image-upload subsystem.

JavaScript strings are modelled as lists of characters; the JavaScript
truthiness of an optional string field is "present and non-empty".
Network effects are modelled by passing the transport outcome as an
explicit `Except` argument (a rejection carries the thrown error's
message), and each service entry point additionally reports whether its
network call was reached.  JavaScript numbers appearing in the resize
computation are modelled as rationals.
-/

/-- A JavaScript string, as a list of characters. -/
abbrev JSStr := List Char

/-- Truthiness of an optional string field: absent and the empty string are falsy. -/
def jsTruthy : Option JSStr → Bool
  | some s => !s.isEmpty
  | none => false

/-- Truthiness of an optional numeric field: absent and `0` are falsy. -/
def jsTruthyN : Option Nat → Bool
  | some n => n != 0
  | none => false

/-- JavaScript `a || b` on optional strings, where the code assigns the result
to a mandatory string field. -/
def jsOrStr (a b : Option JSStr) : JSStr :=
  if jsTruthy a then a.getD [] else b.getD []

/-- JavaScript `a || b` kept as an optional field. -/
def jsOrOpt (a b : Option JSStr) : Option JSStr :=
  if jsTruthy a then a else b

/-- JavaScript `a || d` with a mandatory string default. -/
def jsOrDefault (a : Option JSStr) (d : JSStr) : JSStr :=
  if jsTruthy a then a.getD [] else d

/-- JavaScript `a || b || d` with a mandatory string default. -/
def jsOrStr3 (a b : Option JSStr) (d : JSStr) : JSStr :=
  if jsTruthy a then a.getD [] else if jsTruthy b then b.getD [] else d

/-- JavaScript `a || b || d` on numeric fields with a mandatory default. -/
def jsOrNat3 (a b : Option Nat) (d : Nat) : Nat :=
  if jsTruthyN a then a.getD 0 else if jsTruthyN b then b.getD 0 else d

/-- JavaScript `s.includes(pat)`: `pat` occurs contiguously in `s`. -/
def containsSub (s pat : JSStr) : Bool :=
  if pat.isPrefixOf s then true
  else
    match s with
    | [] => false
    | _ :: t => containsSub t pat

/-- Decimal rendering of a number, for interpolated messages. -/
def natStr (n : Nat) : JSStr := (toString n).toList

/-- The fields of a `File` object read by the upload service. -/
structure JSFile where
  name : JSStr
  size : Nat
  type : JSStr

/-- Upload size cap of `validateFile` (imageUpload.service.ts:198). -/
def maxUploadSize : Nat := 10 * 1024 * 1024

/-- The MIME types accepted by `validateFile` (imageUpload.service.ts:207-215). -/
def supportedFormats : List JSStr :=
  ["image/jpeg".toList, "image/jpg".toList, "image/png".toList, "image/gif".toList,
   "image/webp".toList, "image/bmp".toList, "image/tiff".toList]

/-- The characters rejected in file names (imageUpload.service.ts:227). -/
def invalidNameChars : List Char := ['<', '>', ':', '"', '/', '\\', '|', '?', '*']

/-- `ImageUploadService.validateFile` (imageUpload.service.ts:189-231).  The
`!file` guard of line 190 is outside the modelled domain because the file
argument is always supplied here. -/
def validateFile (f : JSFile) : Except JSStr Unit :=
  if !("image/".toList.isPrefixOf f.type) then
    .error ("Le fichier doit être une image".toList)
  else if f.size > maxUploadSize then
    .error ("La taille du fichier ne doit pas dépasser 10MB".toList)
  else if f.size = 0 then
    .error ("Le fichier est vide".toList)
  else if f.type ∉ supportedFormats then
    .error ("Format non supporté. Utilisez JPEG, PNG, GIF, WebP, BMP ou TIFF".toList)
  else if f.name.length > 255 then
    .error ("Le nom du fichier est trop long".toList)
  else if f.name.any (fun c => invalidNameChars.contains c) then
    .error ("Le nom du fichier contient des caractères non autorisés".toList)
  else
    .ok ()

/-- The image fields the service reads from an upload response body, each
possibly absent (imageUpload.service.ts:60-78). -/
structure ImgFields where
  imageUrl : Option JSStr := none
  url : Option JSStr := none
  publicId : Option JSStr := none
  public_id : Option JSStr := none
  originalFileName : Option JSStr := none
  original_filename : Option JSStr := none
  fileSize : Option Nat := none
  file_size : Option Nat := none
  width : Option Nat := none
  height : Option Nat := none
  dimensions : Option (Nat × Nat) := none

/-- The body of a Cloudinary upload response: the envelope fields
(`success`, `message`, `data`) plus the image fields that may also sit at
the top level of the body. -/
structure RespData where
  success : Option Bool := none
  message : Option JSStr := none
  data : Option ImgFields := none
  fields : ImgFields := {}

/-- An HTTP response as the service sees it: status, status text and an
optional parsed body. -/
structure HttpResp (β : Type) where
  status : Nat
  statusText : JSStr := []
  data : Option β := none

/-- `ImageUploadResponse` (imageUpload.service.ts:4-15). -/
structure ImageUploadResponse where
  imageUrl : JSStr
  publicId : Option JSStr := none
  originalFileName : JSStr
  fileSize : Nat
  width : Option Nat := none
  height : Option Nat := none
  dimensions : Option (Nat × Nat) := none

/-- Lines 35-80 of `uploadImage`: the checks and normalization applied to
the resolved Cloudinary response. -/
def processCloudinaryResponse (file : JSFile) (resp : HttpResp RespData) :
    Except JSStr ImageUploadResponse :=
  if resp.status ≠ 200 then
    .error ("Erreur HTTP ".toList ++ natStr resp.status ++ ": ".toList ++ resp.statusText)
  else
    match resp.data with
    | none => .error ("Réponse vide du serveur".toList)
    | some rd =>
      if rd.success = some false then
        .error (jsOrDefault rd.message ("Erreur lors de l\x27upload".toList))
      else
        match (if rd.data.isSome then rd.data
               else if jsTruthy rd.fields.imageUrl then some rd.fields else none) with
        | none => .error ("Format de réponse invalide du serveur".toList)
        | some imageData =>
          if !(jsTruthy imageData.imageUrl) && !(jsTruthy imageData.url) then
            .error ("URL de l\x27image manquante dans la réponse".toList)
          else
            .ok {
              imageUrl := jsOrStr imageData.imageUrl imageData.url
              publicId := jsOrOpt imageData.publicId imageData.public_id
              originalFileName :=
                jsOrStr3 imageData.originalFileName imageData.original_filename file.name
              fileSize := jsOrNat3 imageData.fileSize imageData.file_size file.size
              width := imageData.width
              height := imageData.height
              dimensions :=
                if imageData.dimensions.isSome then imageData.dimensions
                else if jsTruthyN imageData.width && jsTruthyN imageData.height then
                  some (imageData.width.getD 0, imageData.height.getD 0)
                else none }

/-- The catch block of `uploadImage` (imageUpload.service.ts:81-105): the
message of the caught error (every failure in this model is an `Error`
carrying a message) is prefixed unless it already mentions the upload. -/
def wrapUploadError (m : JSStr) : JSStr :=
  if containsSub m ("Erreur lors de l\x27upload".toList) then m
  else "Erreur lors de l\x27upload de l\x27image: ".toList ++ m

/-- The outcome of a service entry point together with whether its network
call was reached. -/
structure ServiceCall where
  result : Except JSStr ImageUploadResponse
  networkCalled : Bool

/-- `ImageUploadService.uploadImage` (imageUpload.service.ts:24-107):
client-side validation, then the Cloudinary call (whose outcome is the
`net` argument), then response checking; every failure is re-wrapped by
the catch block. -/
def uploadImage (file : JSFile) (net : Except JSStr (HttpResp RespData)) : ServiceCall :=
  match validateFile file with
  | .error e => { result := .error (wrapUploadError e), networkCalled := false }
  | .ok _ =>
    match net with
    | .error e => { result := .error (wrapUploadError e), networkCalled := true }
    | .ok resp =>
      match processCloudinaryResponse file resp with
      | .error e => { result := .error (wrapUploadError e), networkCalled := true }
      | .ok r => { result := .ok r, networkCalled := true }

/-- The body fields read by the classic upload path
(imageUpload.service.ts:132-150). -/
structure ClassicData where
  fileUrl : Option JSStr := none
  filename : Option JSStr := none
  url : Option JSStr := none
  originalFileName : Option JSStr := none
  fileSize : Option Nat := none
  width : Option Nat := none
  height : Option Nat := none
  dimensions : Option (Nat × Nat) := none

/-- The host part of the backend base URL as recomputed by `getImageUrl`
(part_000:232-234), selected by the build-time production flag. -/
def backendHost (prod : Bool) : JSStr :=
  if prod then "https://avoltabackend-production.up.railway.app".toList
  else "http://localhost:8090".toList

/-- `ApiService.getImageUrl` (part_000:223-237). -/
def getImageUrl (prod : Bool) (filename : JSStr) : JSStr :=
  if filename.isEmpty then []
  else if "http".toList.isPrefixOf filename then filename
  else backendHost prod ++ "/api/uploads/".toList ++ filename

/-- The result record assembled by `uploadImageClassic` once the image URL
has been determined (imageUpload.service.ts:144-151). -/
def buildClassicResult (file : JSFile) (rd : ClassicData) (u : JSStr) : ImageUploadResponse :=
  { imageUrl := u
    originalFileName := jsOrDefault rd.originalFileName file.name
    fileSize := if jsTruthyN rd.fileSize then rd.fileSize.getD 0 else file.size
    width := rd.width
    height := rd.height
    dimensions := rd.dimensions }

/-- Lines 120-153 of `uploadImageClassic`: response checking and URL
construction for the classic endpoint. -/
def processClassicResponse (prod : Bool) (file : JSFile) (resp : HttpResp ClassicData) :
    Except JSStr ImageUploadResponse :=
  if resp.status ≠ 200 then
    .error ("Erreur HTTP ".toList ++ natStr resp.status ++ ": ".toList ++ resp.statusText)
  else
    match resp.data with
    | none => .error ("Réponse vide du serveur".toList)
    | some rd =>
      if jsTruthy rd.fileUrl then .ok (buildClassicResult file rd (rd.fileUrl.getD []))
      else if jsTruthy rd.filename then
        .ok (buildClassicResult file rd (getImageUrl prod (rd.filename.getD [])))
      else if jsTruthy rd.url then .ok (buildClassicResult file rd (rd.url.getD []))
      else .error ("Impossible de déterminer l\x27URL de l\x27image".toList)

/-- The catch block of `uploadImageClassic` (imageUpload.service.ts:154-166):
unconditional prefixing of the caught error's message. -/
def wrapClassicError (m : JSStr) : JSStr :=
  "Erreur lors de l\x27upload de l\x27image: ".toList ++ m

/-- `ImageUploadService.uploadImageClassic` (imageUpload.service.ts:112-167). -/
def uploadImageClassic (prod : Bool) (file : JSFile)
    (net : Except JSStr (HttpResp ClassicData)) : ServiceCall :=
  match validateFile file with
  | .error e => { result := .error (wrapClassicError e), networkCalled := false }
  | .ok _ =>
    match net with
    | .error e => { result := .error (wrapClassicError e), networkCalled := true }
    | .ok resp =>
      match processClassicResponse prod file resp with
      | .error e => { result := .error (wrapClassicError e), networkCalled := true }
      | .ok r => { result := .ok r, networkCalled := true }

/-- Modelled from the spec: the caller-side orchestration that composes the
two upload paths is not among the sources under review (only the primary
`uploadImage` and the fallback `uploadImageClassic` it composes are).  Per
the spec, "a failed provider-specific upload triggers exactly one fallback
to a secondary endpoint, not a retry loop".  The second component counts
the classic-endpoint attempts. -/
def uploadWithFallback (prod : Bool) (file : JSFile)
    (primaryNet : Except JSStr (HttpResp RespData))
    (classicNet : Except JSStr (HttpResp ClassicData)) :
    Except JSStr ImageUploadResponse × Nat :=
  match (uploadImage file primaryNet).result with
  | .ok r => (.ok r, 0)
  | .error _ => ((uploadImageClassic prod file classicNet).result, 1)

/-- `ImageUploadService.deleteImage` (imageUpload.service.ts:172-184); the
Boolean records whether the DELETE request was issued.  Both the missing
public id and a rejected request are swallowed by the catch block, which
rethrows a fixed generic message. -/
def deleteImage (publicId : JSStr) (net : Except JSStr Unit) :
    Except JSStr Unit × Bool :=
  if publicId.isEmpty then
    (.error ("Erreur lors de la suppression de l\x27image".toList), false)
  else
    match net with
    | .ok _ => (.ok (), true)
    | .error _ => (.error ("Erreur lors de la suppression de l\x27image".toList), true)

/-- The persisted session state read and cleared by the HTTP client. -/
structure SessionStore where
  token : Option JSStr
  currentUser : Option JSStr

/-- The body of a failed response, as probed by the interceptor: either a
plain string or an object carrying the three probed fields. -/
inductive ErrBody where
  | strBody (s : JSStr)
  | objBody (message errorField details : Option JSStr)

/-- JavaScript truthiness of `error.response?.data`: an object is truthy, a
string body is truthy when non-empty. -/
def errBodyTruthy : ErrBody → Bool
  | .strBody s => !s.isEmpty
  | .objBody _ _ _ => true

/-- Lines 67-80 of part_000: message extraction from a truthy error body. -/
def extractErrorMessage : ErrBody → JSStr
  | .strBody s => s
  | .objBody m e d =>
    if jsTruthy m then m.getD []
    else if jsTruthy e then e.getD []
    else if jsTruthy d then d.getD []
    else "An unexpected error occurred".toList

/-- The axios error-object fields read by the response interceptor. -/
structure AxiosErr where
  status : Option Nat
  respData : Option ErrBody
  message : JSStr

/-- What the interceptor's error branch produces: the updated session
store, the redirects performed, and the message of the rejection. -/
structure InterceptOutcome where
  store : SessionStore
  redirects : List JSStr
  rejectionMessage : JSStr

/-- The response-interceptor error branch of `ApiService` (part_000:51-84). -/
def responseErrorInterceptor (e : AxiosErr) (store : SessionStore) : InterceptOutcome :=
  if e.status = some 401 then
    { store := { token := none, currentUser := none }
      redirects := ["/login".toList]
      rejectionMessage := "Session expired. Please log in again.".toList }
  else
    { store := store
      redirects := []
      rejectionMessage :=
        match e.respData with
        | some body =>
          if errBodyTruthy body then extractErrorMessage body
          else if !e.message.isEmpty then e.message
          else "An unexpected error occurred".toList
        | none =>
          if !e.message.isEmpty then e.message
          else "An unexpected error occurred".toList }

/-- The observable outcome of the publication form's submit handler. -/
structure SubmitOutcome where
  errorMsg : Option JSStr
  successMsg : Option JSStr
  networkCalled : Bool

/-- The generic message set by the submit handler's catch block
(ImageUpload.tsx:531-534). -/
def genericCreateError : JSStr :=
  "Une erreur est survenue lors de la création de la publication.".toList

/-- `CreatePublication.handleSubmit` (ImageUpload.tsx:480-538).  The two form
dates are modelled by their parsed timestamps; the outcome of
`publicationService.createPublication` is the `net` argument, a failure
carrying the optional `error.response.data.message`.  The thrown
date-validation error has no `response`, so the catch block falls back to
the generic message for it. -/
def handleSubmit (validFrom validTo : Int) (isAdmin : Bool)
    (net : Except (Option JSStr) Unit) : SubmitOutcome :=
  if validTo ≤ validFrom then
    { errorMsg := some genericCreateError, successMsg := none, networkCalled := false }
  else
    match net with
    | .ok _ =>
      { errorMsg := none
        successMsg := some (if isAdmin then
            ("Votre publication a été soumise et est en attente de validation par un super administrateur.".toList)
          else ("Publication créée avec succès!".toList))
        networkCalled := true }
    | .error backendMsg =>
      { errorMsg := some (jsOrDefault backendMsg genericCreateError)
        successMsg := none
        networkCalled := true }

/-- The dimension computation of `resizeImage`
(imageUpload.service.ts:284-297); numbers are modelled as rationals. -/
def resizeDims (w h maxWidth maxHeight : ℚ) : ℚ × ℚ :=
  if h < w then
    (if maxWidth < w then (maxWidth, h * maxWidth / w) else (w, h))
  else
    (if maxHeight < h then (w * maxHeight / h, maxHeight) else (w, h))

/-- A Cloudinary response body has a recognizable URL field: `imageUrl` or
`url`, at the top level or under the `data` envelope. -/
def urlDiscoverable (rd : RespData) : Bool :=
  jsTruthy rd.fields.imageUrl || jsTruthy rd.fields.url ||
    (match rd.data with
     | some d => jsTruthy d.imageUrl || jsTruthy d.url
     | none => false)

/-! ## Helper lemmas -/

lemma jsTruthy_getD_ne (o : Option JSStr) (h : jsTruthy o = true) : o.getD [] ≠ [] := by
  cases o with
  | none => exact absurd h (by decide)
  | some s =>
    cases s with
    | nil => exact absurd h (by decide)
    | cons c cs => simp

lemma jsOrStr_ne_nil (a b : Option JSStr) (h : (!jsTruthy a && !jsTruthy b) = false) :
    jsOrStr a b ≠ [] := by
  cases ha : jsTruthy a with
  | true =>
    simp only [jsOrStr, ha, if_true]
    exact jsTruthy_getD_ne a ha
  | false =>
    cases hb : jsTruthy b with
    | false => rw [ha, hb] at h; simp at h
    | true =>
      simp only [jsOrStr, ha, Bool.false_eq_true, if_false]
      exact jsTruthy_getD_ne b hb

lemma containsSub_of_isPrefixOf (s pat : JSStr) (h : pat.isPrefixOf s = true) :
    containsSub s pat = true := by
  unfold containsSub
  rw [h]
  rfl

lemma getImageUrl_http (prod : Bool) (s : JSStr)
    (h : "http".toList.isPrefixOf s = true) : getImageUrl prod s = s := by
  have hne : s ≠ [] := by
    intro h0
    subst h0
    exact absurd h (by decide)
  unfold getImageUrl
  rw [if_neg (by simp [hne]), if_pos h]

lemma getImageUrl_other (prod : Bool) (s : JSStr) (h1 : s ≠ [])
    (h2 : "http".toList.isPrefixOf s = false) :
    getImageUrl prod s = backendHost prod ++ "/api/uploads/".toList ++ s := by
  unfold getImageUrl
  rw [if_neg (by simp [h1]), if_neg (by intro hc; rw [h2] at hc; exact Bool.noConfusion hc)]

lemma backendHost_ne_nil (prod : Bool) : backendHost prod ≠ [] := by
  cases prod <;> decide

lemma getImageUrl_ne_nil (prod : Bool) (s : JSStr) (hs : s ≠ []) :
    getImageUrl prod s ≠ [] := by
  unfold getImageUrl
  split_ifs with h1 h2
  · exact absurd (List.isEmpty_iff.mp h1) hs
  · exact hs
  · intro hc
    rw [List.append_assoc, List.append_eq_nil] at hc
    exact backendHost_ne_nil prod hc.1


/-! ## Claim theorems -/

/-- Claim C5: on an HTTP 401 the response interceptor clears the stored
session (token and current-user record), performs exactly one redirect to
the login page, and rejects with the fixed session-expired message rather
than any backend-supplied one. -/
theorem interceptor_401_clears_session (e : AxiosErr) (store : SessionStore)
    (h : e.status = some 401) :
    responseErrorInterceptor e store =
      { store := { token := none, currentUser := none }
        redirects := ["/login".toList]
        rejectionMessage := "Session expired. Please log in again.".toList } := by
  simp [responseErrorInterceptor, h]

/-- Claim C5, witness: a 401 carrying a backend-supplied message is still
rejected with the fixed session-expired message. -/
theorem interceptor_401_clears_session_witness :
    responseErrorInterceptor
        { status := some 401
          respData := some (.objBody (some ("Accès refusé".toList)) none none)
          message := "Request failed with status code 401".toList }
        { token := some ("tok".toList), currentUser := some ("u".toList) } =
      { store := { token := none, currentUser := none }
        redirects := ["/login".toList]
        rejectionMessage := "Session expired. Please log in again.".toList } :=
  interceptor_401_clears_session _ _ rfl

/-- Claim C7: whenever the end date is not strictly after the start date the
submit handler blocks the submission: a user-visible error message is set,
the publication-creation call is not made, and no success state is reached. -/
theorem handleSubmit_blocks_bad_dates (validFrom validTo : Int) (isAdmin : Bool)
    (net : Except (Option JSStr) Unit) (h : validTo ≤ validFrom) :
    handleSubmit validFrom validTo isAdmin net =
      { errorMsg := some genericCreateError
        successMsg := none
        networkCalled := false } := by
  simp [handleSubmit, h]

/-- Claim C7, witness: equal start and end dates block the submission. -/
theorem handleSubmit_blocks_bad_dates_witness :
    handleSubmit 1700000000 1700000000 false (.ok ()) =
      { errorMsg := some genericCreateError
        successMsg := none
        networkCalled := false } :=
  handleSubmit_blocks_bad_dates 1700000000 1700000000 false (.ok ()) (le_refl _)

/-- Claim C8 fails as stated: with publicId "abc" and a backend failure
carrying the message "Forbidden", `deleteImage` raises the fixed generic
deletion message, which does not contain the backend message. -/
theorem deleteImage_message_counterexample :
    (deleteImage ("abc".toList) (.error ("Forbidden".toList))).1 =
      .error ("Erreur lors de la suppression de l\x27image".toList) ∧
    containsSub ("Erreur lors de la suppression de l\x27image".toList)
      ("Forbidden".toList) = false := by
  constructor
  · rfl
  · decide

/-- Claim C8, amended: `deleteImage` issues the DELETE request whenever the
public id is non-empty, and every failure of the call is replaced by the
fixed generic message "Erreur lors de la suppression de l'image"; the
backend-reported message is discarded, not surfaced. -/
theorem deleteImage_generic_error (publicId : JSStr) (m : JSStr) :
    (deleteImage publicId (.error m)).1 =
      .error ("Erreur lors de la suppression de l\x27image".toList) ∧
    (publicId ≠ [] → (deleteImage publicId (.error m)).2 = true) := by
  unfold deleteImage
  split_ifs with hp
  · exact ⟨rfl, fun hne => absurd (List.isEmpty_iff.mp hp) hne⟩
  · exact ⟨rfl, fun _ => rfl⟩

/-- Claim C8, amended, witness: a non-empty public id issues the request and
the failure is reported with the generic message. -/
theorem deleteImage_generic_error_witness :
    (deleteImage ("abc".toList) (.error ("Forbidden".toList))).2 = true :=
  (deleteImage_generic_error ("abc".toList) ("Forbidden".toList)).2 (by decide)

/-- Claim C9: `getImageUrl` returns the empty string on the empty input,
returns inputs starting with "http" unchanged, prefixes the backend uploads
base path otherwise, and is consequently idempotent. -/
theorem getImageUrl_idempotent (prod : Bool) (f : JSStr) :
    (f = [] → getImageUrl prod f = []) ∧
    ("http".toList.isPrefixOf f = true → getImageUrl prod f = f) ∧
    (f ≠ [] → "http".toList.isPrefixOf f = false →
      getImageUrl prod f = backendHost prod ++ "/api/uploads/".toList ++ f) ∧
    getImageUrl prod (getImageUrl prod f) = getImageUrl prod f := by
  refine ⟨fun h => by subst h; rfl,
          fun h => getImageUrl_http prod f h,
          fun h1 h2 => getImageUrl_other prod f h1 h2, ?_⟩
  by_cases hf : f = []
  · subst hf; rfl
  · cases hp : "http".toList.isPrefixOf f with
    | true =>
      rw [getImageUrl_http prod f hp]
      exact getImageUrl_http prod f hp
    | false =>
      rw [getImageUrl_other prod f hf hp]
      apply getImageUrl_http
      rw [List.isPrefixOf_iff_prefix]
      cases prod with
      | true =>
        have hb : backendHost true =
            "http".toList ++ "s://avoltabackend-production.up.railway.app".toList := rfl
        rw [hb, List.append_assoc, List.append_assoc]
        exact List.prefix_append _ _
      | false =>
        have hb : backendHost false = "http".toList ++ "://localhost:8090".toList := rfl
        rw [hb, List.append_assoc, List.append_assoc]
        exact List.prefix_append _ _

/-- Claim C9, witness: a bare filename is prefixed with the local uploads
base path. -/
theorem getImageUrl_idempotent_witness :
    getImageUrl false ("x.png".toList) =
      backendHost false ++ "/api/uploads/".toList ++ "x.png".toList :=
  (getImageUrl_idempotent false ("x.png".toList)).2.2.1 (by decide) (by decide)

/-- Claim C6 fails as stated: a landscape 300x100 image with bounds
maxWidth=1200, maxHeight=50 is returned unchanged by the resize
computation, so its height exceeds maxHeight. -/
theorem resizeDims_bounds_counterexample :
    resizeDims 300 100 1200 50 = (300, 100) ∧
    ¬ ((resizeDims 300 100 1200 50).2 ≤ 50) := by
  constructor
  · norm_num [resizeDims]
  · norm_num [resizeDims]

/-- Claim C6, amended: the resize computation preserves the aspect ratio
exactly and bounds only the dominant dimension — for a landscape image
(h < w) the resulting width is at most maxWidth, otherwise the resulting
height is at most maxHeight; the other bound can be exceeded.  In
particular a 4000x2000 image with maxWidth=1200, maxHeight=800 becomes
1200x600, within both bounds and of aspect ratio 2:1. -/
theorem resizeDims_amended :
    (∀ w h maxWidth maxHeight : ℚ, 0 < w → 0 < h →
      (resizeDims w h maxWidth maxHeight).1 * h = (resizeDims w h maxWidth maxHeight).2 * w ∧
      (h < w → (resizeDims w h maxWidth maxHeight).1 ≤ maxWidth) ∧
      (w ≤ h → (resizeDims w h maxWidth maxHeight).2 ≤ maxHeight)) ∧
    resizeDims 4000 2000 1200 800 = (1200, 600) := by
  constructor
  · intro w h maxWidth maxHeight hw hh
    have hw0 : w ≠ 0 := ne_of_gt hw
    have hh0 : h ≠ 0 := ne_of_gt hh
    unfold resizeDims
    split_ifs with h1 h2 h3
    · refine ⟨?_, fun _ => le_refl _, fun hle => absurd h1 (not_lt.mpr hle)⟩
      field_simp
      ring
    · exact ⟨mul_comm w h, fun _ => le_of_not_lt h2, fun hle => absurd h1 (not_lt.mpr hle)⟩
    · refine ⟨?_, fun hlt => absurd hlt h1, fun _ => le_refl _⟩
      field_simp
      ring
    · exact ⟨mul_comm w h, fun hlt => absurd hlt h1, fun _ => le_of_not_lt h3⟩
  · norm_num [resizeDims]

/-- Claim C6, amended, witness: the 4000x2000 case preserves the 2:1 aspect
ratio. -/
theorem resizeDims_amended_witness :
    (resizeDims 4000 2000 1200 800).1 * 2000 = (resizeDims 4000 2000 1200 800).2 * 4000 :=
  (resizeDims_amended.1 4000 2000 1200 800 (by norm_num) (by norm_num)).1

lemma wrapUploadError_contains (m : JSStr) :
    containsSub (wrapUploadError m) ("Erreur lors de l\x27upload".toList) = true := by
  unfold wrapUploadError
  split_ifs with h
  · exact h
  · apply containsSub_of_isPrefixOf
    rw [List.isPrefixOf_iff_prefix]
    have hpre : "Erreur lors de l\x27upload".toList <+:
        "Erreur lors de l\x27upload de l\x27image: ".toList :=
      ⟨" de l\x27image: ".toList, rfl⟩
    exact hpre.trans (List.prefix_append _ m)

/-- Claim C10: every failure of `uploadImage` reaches the caller with a
message containing the substring "Erreur lors de l'upload"; no raw
unprefixed error escapes. -/
theorem uploadImage_error_message_prefixed (file : JSFile)
    (net : Except JSStr (HttpResp RespData)) (m : JSStr)
    (h : (uploadImage file net).result = .error m) :
    containsSub m ("Erreur lors de l\x27upload".toList) = true := by
  unfold uploadImage at h
  cases hv : validateFile file with
  | error e =>
    rw [hv] at h
    have h2 : Except.error (wrapUploadError e) = Except.error m := h
    injection h2 with h3
    rw [← h3]
    exact wrapUploadError_contains e
  | ok u =>
    rw [hv] at h
    cases net with
    | error e =>
      have h2 : Except.error (wrapUploadError e) = Except.error m := h
      injection h2 with h3
      rw [← h3]
      exact wrapUploadError_contains e
    | ok resp =>
      cases hp : processCloudinaryResponse file resp with
      | error e =>
        simp only [hp, Except.error.injEq] at h
        rw [← h]
        exact wrapUploadError_contains e
      | ok r =>
        simp only [hp] at h
        exact Except.noConfusion h

/-- Claim C10, witness: a transport failure of an otherwise valid upload is
reported with the prefixed message. -/
theorem uploadImage_error_message_prefixed_witness :
    containsSub (wrapUploadError ("boom".toList))
      ("Erreur lors de l\x27upload".toList) = true :=
  uploadImage_error_message_prefixed ⟨"a.png".toList, 5, "image/png".toList⟩
    (.error ("boom".toList)) _ rfl

lemma validateFile_ok_conditions (f : JSFile) (u : Unit) (h : validateFile f = .ok u) :
    f.type ∈ supportedFormats ∧ f.size ≤ maxUploadSize ∧ f.size ≠ 0 ∧
    f.name.length ≤ 255 ∧
    f.name.any (fun c => invalidNameChars.contains c) = false := by
  unfold validateFile at h
  split_ifs at h
  rename_i h1 h2 h3 h4 h5 h6
  have h6f : f.name.any (fun c => invalidNameChars.contains c) = false := by
    revert h6
    cases f.name.any (fun c => invalidNameChars.contains c) <;> simp
  exact ⟨h4, not_lt.mp h2, h3, not_lt.mp h5, h6f⟩

/-- Claim C3: a file with a disallowed MIME type, a size above 10 MiB, a
size of 0, a name longer than 255 characters or a forbidden name character
fails validation, and `uploadImage` then fails without reaching its
network call. -/
theorem validateFile_rejects_before_network (file : JSFile)
    (hbad : file.type ∉ supportedFormats ∨ file.size > maxUploadSize ∨ file.size = 0 ∨
      file.name.length > 255 ∨
      file.name.any (fun c => invalidNameChars.contains c) = true) :
    (∃ e, validateFile file = .error e) ∧
    ∀ net, (uploadImage file net).networkCalled = false ∧
      ∃ m, (uploadImage file net).result = .error m := by
  have hval : ∃ e, validateFile file = .error e := by
    cases hres : validateFile file with
    | error e => exact ⟨e, rfl⟩
    | ok u =>
      exfalso
      obtain ⟨c1, c2, c3, c4, c5⟩ := validateFile_ok_conditions file u hres
      rcases hbad with hb | hb | hb | hb | hb
      · exact hb c1
      · exact absurd hb (not_lt.mpr c2)
      · exact c3 hb
      · exact absurd hb (not_lt.mpr c4)
      · rw [c5] at hb; exact Bool.noConfusion hb
  obtain ⟨e, he⟩ := hval
  refine ⟨⟨e, he⟩, fun net => ⟨?_, wrapUploadError e, ?_⟩⟩
  · simp [uploadImage, he]
  · simp [uploadImage, he]

/-- Claim C3, witness: a plain-text file is rejected by validation. -/
theorem validateFile_rejects_before_network_witness :
    ∃ e, validateFile ⟨"a.txt".toList, 5, "text/plain".toList⟩ = .error e :=
  (validateFile_rejects_before_network _ (Or.inl (by decide))).1

lemma processCloudinary_ok_imageUrl (file : JSFile) (resp : HttpResp RespData)
    (r : ImageUploadResponse) (h : processCloudinaryResponse file resp = .ok r) :
    r.imageUrl ≠ [] := by
  unfold processCloudinaryResponse at h
  split at h
  · exact Except.noConfusion h
  · split at h
    · exact Except.noConfusion h
    · split at h
      · exact Except.noConfusion h
      · split at h
        · exact Except.noConfusion h
        · split at h
          · exact Except.noConfusion h
          · rename_i imageData heq hg
            injection h with h2
            rw [← h2]
            show jsOrStr imageData.imageUrl imageData.url ≠ []
            apply jsOrStr_ne_nil
            exact Bool.eq_false_iff.mpr hg

lemma processClassic_ok_imageUrl (prod : Bool) (file : JSFile)
    (resp : HttpResp ClassicData) (r : ImageUploadResponse)
    (h : processClassicResponse prod file resp = .ok r) : r.imageUrl ≠ [] := by
  unfold processClassicResponse at h
  split at h
  · exact Except.noConfusion h
  · split at h
    · exact Except.noConfusion h
    · split at h
      · rename_i rd heq hfu
        injection h with h2
        rw [← h2]
        exact jsTruthy_getD_ne _ hfu
      · split at h
        · rename_i rd heq hfu hfn
          injection h with h2
          rw [← h2]
          exact getImageUrl_ne_nil prod _ (jsTruthy_getD_ne _ hfn)
        · split at h
          · rename_i rd heq hfu hfn hu
            injection h with h2
            rw [← h2]
            exact jsTruthy_getD_ne _ hu
          · exact Except.noConfusion h


/-- Claim C2: whenever `uploadImage` or `uploadImageClassic` returns
successfully, the returned result's `imageUrl` is present and non-empty;
when no URL can be derived, the call fails instead. -/
theorem upload_success_imageUrl_nonempty (prod : Bool) (file : JSFile)
    (net : Except JSStr (HttpResp RespData))
    (netC : Except JSStr (HttpResp ClassicData)) :
    (∀ r, (uploadImage file net).result = .ok r → r.imageUrl ≠ []) ∧
    (∀ r, (uploadImageClassic prod file netC).result = .ok r → r.imageUrl ≠ []) := by
  constructor
  · intro r hr
    cases hv : validateFile file with
    | error e =>
      simp only [uploadImage, hv] at hr
      exact Except.noConfusion hr
    | ok u =>
      cases net with
      | error e =>
        simp only [uploadImage, hv] at hr
        exact Except.noConfusion hr
      | ok resp =>
        cases hp : processCloudinaryResponse file resp with
        | error e =>
          simp only [uploadImage, hv, hp] at hr
          exact Except.noConfusion hr
        | ok r2 =>
          simp only [uploadImage, hv, hp, Except.ok.injEq] at hr
          rw [← hr]
          exact processCloudinary_ok_imageUrl file resp r2 hp
  · intro r hr
    cases hv : validateFile file with
    | error e =>
      simp only [uploadImageClassic, hv] at hr
      exact Except.noConfusion hr
    | ok u =>
      cases netC with
      | error e =>
        simp only [uploadImageClassic, hv] at hr
        exact Except.noConfusion hr
      | ok resp =>
        cases hp : processClassicResponse prod file resp with
        | error e =>
          simp only [uploadImageClassic, hv, hp] at hr
          exact Except.noConfusion hr
        | ok r2 =>
          simp only [uploadImageClassic, hv, hp, Except.ok.injEq] at hr
          rw [← hr]
          exact processClassic_ok_imageUrl prod file resp r2 hp

/-- Claim C2, witness: a successful Cloudinary upload carries its non-empty
URL. -/
theorem upload_success_imageUrl_nonempty_witness :
    ({ imageUrl := "https://h/x.jpg".toList
       publicId := none
       originalFileName := "a.png".toList
       fileSize := 5 } : ImageUploadResponse).imageUrl ≠ [] :=
  (upload_success_imageUrl_nonempty false
      ⟨"a.png".toList, 5, "image/png".toList⟩
      (.ok { status := 200
             data := some { fields := { imageUrl := some ("https://h/x.jpg".toList) } } })
      (.error [])).1 _ rfl

/-- Claim C1: `uploadImage` accepts a Cloudinary response only if the HTTP
status is a success (in fact exactly 200), the body is non-empty, and an
`imageUrl`/`url` field is recognizable at the top level of the body or
under the `data` envelope; every response without a recognizable URL field
makes `uploadImage` fail with an error. -/
theorem uploadImage_accepts_only_recognizable_url (file : JSFile)
    (resp : HttpResp RespData) :
    (∀ r, processCloudinaryResponse file resp = .ok r →
      resp.status = 200 ∧ ∃ rd, resp.data = some rd ∧ urlDiscoverable rd = true) ∧
    ((resp.data = none ∨ ∃ rd, resp.data = some rd ∧ urlDiscoverable rd = false) →
      ∃ e, (uploadImage file (.ok resp)).result = .error e) := by
  have hmain : ∀ r, processCloudinaryResponse file resp = .ok r →
      resp.status = 200 ∧ ∃ rd, resp.data = some rd ∧ urlDiscoverable rd = true := by
    intro r h
    unfold processCloudinaryResponse at h
    split at h
    · exact Except.noConfusion h
    · rename_i hs
      split at h
      · exact Except.noConfusion h
      · rename_i rd hd
        refine ⟨not_not.mp hs, rd, hd, ?_⟩
        split at h
        · exact Except.noConfusion h
        · split at h
          · exact Except.noConfusion h
          · rename_i x imageData heq
            split at h
            · exact Except.noConfusion h
            · rename_i hg
              have hg2 : (jsTruthy imageData.imageUrl || jsTruthy imageData.url) = true := by
                have hgf := Bool.eq_false_iff.mpr hg
                revert hgf
                cases jsTruthy imageData.imageUrl <;> cases jsTruthy imageData.url <;> simp
              cases hdd : rd.data with
              | some d =>
                rw [hdd] at heq
                have heq2 : (some d : Option ImgFields) = some imageData := heq
                injection heq2 with heq3
                subst heq3
                simp [urlDiscoverable, hdd, hg2]
              | none =>
                rw [hdd] at heq
                have heq2 : (if jsTruthy rd.fields.imageUrl then some rd.fields else none) =
                    some imageData := heq
                cases hfi : jsTruthy rd.fields.imageUrl with
                | false => rw [hfi] at heq2; simp at heq2
                | true => simp [urlDiscoverable, hfi]
  refine ⟨hmain, ?_⟩
  intro hcase
  cases hv : validateFile file with
  | error e => exact ⟨wrapUploadError e, by simp [uploadImage, hv]⟩
  | ok u =>
    cases hp : processCloudinaryResponse file resp with
    | error e => exact ⟨wrapUploadError e, by simp [uploadImage, hv, hp]⟩
    | ok r =>
      exfalso
      obtain ⟨hs200, rd, hrd, hdisc⟩ := hmain r hp
      rcases hcase with hnone | ⟨rd2, hrd2, hfalse⟩
      · rw [hnone] at hrd
        exact Option.noConfusion hrd
      · rw [hrd2] at hrd
        injection hrd with h3
        subst h3
        rw [hdisc] at hfalse
        exact Bool.noConfusion hfalse

/-- Claim C1, witness: a 200 response whose body exposes no URL field is
rejected. -/
theorem uploadImage_accepts_only_recognizable_url_witness :
    ∃ e, (uploadImage ⟨"a.png".toList, 5, "image/png".toList⟩
        (.ok { status := 200, data := some {} })).result = .error e :=
  (uploadImage_accepts_only_recognizable_url ⟨"a.png".toList, 5, "image/png".toList⟩
      { status := 200, data := some {} }).2 (Or.inr ⟨{}, rfl, by decide⟩)

/-- Claim C4: when the primary upload fails, the fallback orchestration
makes exactly one classic-endpoint attempt (no retry loop), and a classic
response carrying only a `filename` yields an imageUrl built by prefixing
the backend uploads base path to that filename. -/
theorem fallback_once_and_filename_prefixed :
    (∀ (prod : Bool) (file : JSFile) (primaryNet : Except JSStr (HttpResp RespData))
        (classicNet : Except JSStr (HttpResp ClassicData)) (e : JSStr),
      (uploadImage file primaryNet).result = .error e →
      (uploadWithFallback prod file primaryNet classicNet).2 = 1 ∧
      (uploadWithFallback prod file primaryNet classicNet).1 =
        (uploadImageClassic prod file classicNet).result) ∧
    (∀ (prod : Bool) (file : JSFile),
      ∃ r, processClassicResponse prod file
          { status := 200, data := some { filename := some ("y.png".toList) } } = .ok r ∧
        r.imageUrl = backendHost prod ++ "/api/uploads/".toList ++ "y.png".toList) := by
  constructor
  · intro prod file p c e he
    unfold uploadWithFallback
    rw [he]
    exact ⟨rfl, rfl⟩
  · intro prod file
    refine ⟨_, rfl, ?_⟩
    show getImageUrl prod ("y.png".toList) =
      backendHost prod ++ "/api/uploads/".toList ++ "y.png".toList
    cases prod <;> rfl

/-- Claim C4, witness: a failing primary upload leads to exactly one
classic attempt. -/
theorem fallback_once_and_filename_prefixed_witness :
    (uploadWithFallback false ⟨"a.png".toList, 5, "image/png".toList⟩
        (.error ("boom".toList))
        (.ok { status := 200, data := some { filename := some ("y.png".toList) } })).2 = 1 :=
  (fallback_once_and_filename_prefixed.1 false ⟨"a.png".toList, 5, "image/png".toList⟩
      (.error ("boom".toList))
      (.ok { status := 200, data := some { filename := some ("y.png".toList) } })
      (wrapUploadError ("boom".toList)) rfl).1
